import Mathlib

/-!
Shallow embedding of the keep-it-cherry vehicle-maintenance backend.

The canonical HTTP server is the Express application in
`src/unnamed/part_000` (routes over Neon Postgres via `pg`); an earlier
revision lives in `src/unnamed/part_001`.  The catalog-ingestion script
(`getModelsForMakeYear` and friends) is in `src/csv_to_sql.js`.

JavaScript request-body values are embedded as the inductive type `JSVal`
(null, boolean, string, integer number — the fragment of JSON values the
endpoints consume; fractional numbers never reach the arithmetic these
claims are about).  A field absent from the body (`undefined`) is `none`
at type `Option JSVal`.  The Postgres tables are embedded as lists of row
structures together with the identity-sequence counter; each route handler
is a pure function from the table state and the request to a response
(status code, JSON body) and the new state.  The `mileage::text` cast in
the `RETURNING` clauses is serialization of the same numeric value and is
not reflected in the row type.
-/

/-- The JSON scalar values handled by the API: JavaScript `null`, booleans,
strings and (integer) numbers. -/
inductive JSVal where
  | null : JSVal
  | bool : Bool → JSVal
  | str : String → JSVal
  | num : Int → JSVal
deriving Repr, DecidableEq

/-- JavaScript truthiness of a value (`!v` is `!jsTruthy v`):
`null`, `false`, `""` and `0` are falsy. -/
def jsTruthy : JSVal → Bool
  | .null => false
  | .bool b => b
  | .str s => s ≠ ""
  | .num n => n ≠ 0

/-- Truthiness of a possibly-absent field: an absent (`undefined`) field is
falsy. -/
def fieldTruthy : Option JSVal → Bool
  | none => false
  | some v => jsTruthy v

/-- JavaScript `String(v)` on the embedded values. -/
def jsToString : JSVal → String
  | .null => "null"
  | .bool true => "true"
  | .bool false => "false"
  | .str s => s
  | .num n => toString n

/-- JavaScript `v ?? d`: the default replaces only `undefined` (absent) and
`null`. -/
def jsCoalesce (v : Option JSVal) (d : JSVal) : JSVal :=
  match v with
  | none => d
  | some .null => d
  | some w => w

/-- `String.replace(/[^\d]/g, "")`: keep exactly the ASCII digit
characters of a string, in order. -/
def digitsOnly (s : String) : String :=
  String.mk (s.data.filter Char.isDigit)

/-- Value of a list of decimal digit characters (most significant first). -/
def natOfDigits (cs : List Char) : Nat :=
  cs.foldl (fun a c => a * 10 + (c.toNat - 48)) 0

/-- JavaScript `Number(s)` on the digit-only strings produced by
`digitsOnly`: the empty string evaluates to `0` and a digit string to its
decimal value; `none` stands for `NaN`, which `Number` never yields on such
strings. -/
def jsNumberOfDigits (s : String) : Option Nat :=
  if s.data.all Char.isDigit then some (natOfDigits s.data) else none

/-- The whitespace trimming `Number` performs on a string argument, on the
character content (both ends). -/
def trimChars (l : List Char) : List Char :=
  ((l.dropWhile Char.isWhitespace).reverse.dropWhile Char.isWhitespace).reverse

/-- JavaScript `Number(s)` on a general string, restricted to the
optionally-signed decimal integer literals that reach the integer columns
of this API: surrounding whitespace is trimmed, the empty string is `0`,
and every other string is mapped to `none`.  For a genuinely non-numeric
string `none` is JavaScript's `NaN`; the model also sends the exotic
numeric spellings JavaScript would accept (fractional, exponent, hex —
"2020.0", "2e3", "0x10") to `none`, which is exact for the store outcome
whenever their value is fractional, infinite or outside `int4` range and
approximate only for the few that denote an in-range integer. -/
def jsStrToInt (s : String) : Option Int :=
  match trimChars s.data with
  | [] => some 0
  | '-' :: rest =>
      if rest ≠ [] ∧ rest.all Char.isDigit then some (-(natOfDigits rest : Int)) else none
  | '+' :: rest =>
      if rest ≠ [] ∧ rest.all Char.isDigit then some ((natOfDigits rest : Int)) else none
  | t =>
      if t.all Char.isDigit then some (natOfDigits t) else none

/-- JavaScript `Number(v)` on the embedded values (`none` = `NaN`). -/
def jsToNumber : JSVal → Option Int
  | .null => some 0
  | .bool b => some (if b then 1 else 0)
  | .num n => some n
  | .str s => jsStrToInt s

/-!  ## Vehicles resource (src/unnamed/part_000, lines 30–111) -/

/-- A row of the `vehicles` table (`id` is the identity column;
`created_at` tracks `id`: rows are created with strictly increasing ids,
so id order is creation order). -/
structure VehicleRow where
  id : Nat
  year : Int
  make : String
  model : String
  mileage : Nat
deriving Repr, DecidableEq

/-- The `vehicles` table: its rows in chronological (insertion) order and
the next value of the identity sequence. -/
structure VehiclesState where
  rows : List VehicleRow
  nextId : Nat
deriving Repr, DecidableEq

/-- JSON body of a vehicle-endpoint response. -/
inductive ApiBody where
  | row : VehicleRow → ApiBody
  | rows : List VehicleRow → ApiBody
  | deleted : Nat → ApiBody
  | message : String → ApiBody
  | error : String → ApiBody
deriving Repr, DecidableEq

/-- Whether a response body is a single vehicle row. -/
def isRowBody : ApiBody → Bool
  | .row _ => true
  | _ => false

/-- Outcome of a vehicle route handler: HTTP status, JSON body, and the
table state after the request. -/
structure VehiclesResponse where
  status : Nat
  body : ApiBody
  state : VehiclesState
deriving Repr, DecidableEq

/-- Request body of `POST /api/vehicles` / `PATCH /api/vehicles/:id`
(the destructured fields; an absent field is `none`). -/
structure VehicleReqBody where
  year : Option JSVal
  make : Option JSVal
  model : Option JSVal
  mileage : Option JSVal
deriving Repr, DecidableEq

/-- `const miles = Number(String(mileage ?? "0").replace(/[^\d]/g, "")) || 0;`
from the `POST /api/vehicles` handler. -/
def sanitizeMiles (mileage : Option JSVal) : Nat :=
  match jsNumberOfDigits (digitsOnly (jsToString (jsCoalesce mileage (.str "0")))) with
  | none => 0
  | some n => n

/-- `POST /api/vehicles` (part_000 lines 30–51): 400 unless `year`, `make`
and `model` are all truthy; otherwise sanitize the mileage, insert the row
and return it with status 201.  A `NaN` year makes the parameterized
insert fail at the store (500). -/
def createVehicle (s : VehiclesState) (b : VehicleReqBody) : VehiclesResponse :=
  if !(fieldTruthy b.year && fieldTruthy b.make && fieldTruthy b.model) then
    ⟨400, .error "year, make, and model are required", s⟩
  else
    match jsToNumber (jsCoalesce b.year .null) with
    | none => ⟨500, .error "Failed to save vehicle", s⟩
    | some y =>
        let row : VehicleRow :=
          ⟨s.nextId, y, jsToString (jsCoalesce b.make .null),
            jsToString (jsCoalesce b.model .null), sanitizeMiles b.mileage⟩
        ⟨201, .row row, ⟨s.rows ++ [row], s.nextId + 1⟩⟩

/-- `ORDER BY id DESC` comparison used by the vehicle listing. -/
def vehDescLE (a b : VehicleRow) : Bool :=
  decide (b.id ≤ a.id)

/-- `GET /api/vehicles` (part_000 lines 54–65): the full table,
`ORDER BY id DESC`. -/
def getVehicles (s : VehiclesState) : VehiclesResponse :=
  ⟨200, .rows (s.rows.mergeSort vehDescLE), s⟩

/-- `DELETE /api/vehicles/all` (part_000 lines 68–76):
`TRUNCATE TABLE vehicles RESTART IDENTITY CASCADE`. -/
def deleteAllVehicles (_s : VehiclesState) : VehiclesResponse :=
  ⟨200, .message "All vehicles deleted.", ⟨[], 1⟩⟩

/-- `const miles = Number(String(req.body?.mileage ?? "0").replace(/[^\d]/g, ""));`
from the `PATCH /api/vehicles/:id` handler — kept as an `Option Nat` so the
handler's `isNaN` test can be taken verbatim. -/
def patchMiles (mileage : Option JSVal) : Option Nat :=
  jsNumberOfDigits (digitsOnly (jsToString (jsCoalesce mileage (.str "0"))))

/-- `PATCH /api/vehicles/:id` (part_000 lines 79–98): sanitize the mileage,
return 400 if it is `NaN`, update every row with the given id (there is at
most one) and return the updated row, or 404 when the `UPDATE ... RETURNING`
yields no row. -/
def patchVehicle (s : VehiclesState) (id : Nat) (mileage : Option JSVal) : VehiclesResponse :=
  match patchMiles mileage with
  | none => ⟨400, .error "Mileage must be a number", s⟩
  | some miles =>
      match s.rows.find? (fun r => r.id == id) with
      | none => ⟨404, .error "Vehicle not found", s⟩
      | some r =>
          ⟨200, .row { r with mileage := miles },
            ⟨s.rows.map (fun q => if q.id == id then { q with mileage := miles } else q),
              s.nextId⟩⟩

/-- `DELETE /api/vehicles/:id` (part_000 lines 101–111): delete the rows
with the given id; 404 when the delete's row count is zero, otherwise
`{success: true, deletedId: id}`. -/
def deleteVehicle (s : VehiclesState) (id : Nat) : VehiclesResponse :=
  if (s.rows.filter (fun r => !(r.id == id))).length == s.rows.length then
    ⟨404, .error "Vehicle not found", s⟩
  else
    ⟨200, .deleted id, ⟨s.rows.filter (fun r => !(r.id == id)), s.nextId⟩⟩

/-!  ## Service history resource (src/unnamed/part_000, lines 129–148) -/

/-- JavaScript `v || null`: a falsy value is coerced to `null` (an absent
field is `undefined`, also falsy, and likewise becomes `null`). -/
def jsOrNull (v : Option JSVal) : JSVal :=
  match v with
  | none => .null
  | some w => if jsTruthy w then w else .null

/-- Request body of `POST /api/services` (the destructured fields). -/
structure ServiceReqBody where
  vehicle_id : Option JSVal
  service_name : Option JSVal
  mileage : Option JSVal
  interval : Option JSVal
  service_date : Option JSVal
  cost : Option JSVal
  notes : Option JSVal
deriving Repr, DecidableEq

/-- A row of the `service_history` table; the non-identity columns hold the
values the handler passes as SQL parameters (`JSVal.null` = SQL NULL). -/
structure ServiceRow where
  id : Nat
  vehicle_id : JSVal
  service_name : JSVal
  mileage : JSVal
  interval : JSVal
  service_date : JSVal
  cost : JSVal
  notes : JSVal
deriving Repr, DecidableEq

/-- The `service_history` table. -/
structure ServicesState where
  rows : List ServiceRow
  nextId : Nat
deriving Repr, DecidableEq

/-- Outcome of `POST /api/services`: status, the row returned by
`RETURNING *` (when one was inserted), and the new table state. -/
structure ServiceResponse where
  status : Nat
  row? : Option ServiceRow
  state : ServicesState
deriving Repr, DecidableEq

/-- `POST /api/services` (part_000 lines 129–148): 400 unless `vehicle_id`
and `service_name` are truthy; the insert passes `mileage` through
unchanged and coerces each of `interval`, `service_date`, `cost`, `notes`
with `|| null`. -/
def postService (s : ServicesState) (b : ServiceReqBody) : ServiceResponse :=
  if !(fieldTruthy b.vehicle_id && fieldTruthy b.service_name) then
    ⟨400, none, s⟩
  else
    let row : ServiceRow :=
      ⟨s.nextId, b.vehicle_id.getD .null, b.service_name.getD .null,
        b.mileage.getD .null, jsOrNull b.interval, jsOrNull b.service_date,
        jsOrNull b.cost, jsOrNull b.notes⟩
    ⟨201, some row, ⟨s.rows ++ [row], s.nextId + 1⟩⟩

/-!  ## Vehicle catalog resource (src/unnamed/part_000, lines 184–221) -/

/-- A row of the read-only `vehicle_catalog` table. -/
structure CatalogRow where
  year : Int
  make : String
  model : String
  trim : String
  engine : String
  transmission : String
deriving Repr, DecidableEq

/-- Query string of `GET /api/catalog` (each parameter, when present, is a
string). -/
structure CatalogQuery where
  year : Option String
  make : Option String
  model : Option String
deriving Repr, DecidableEq

/-- Truthiness of an optional query-string parameter: present and
non-empty. -/
def paramTruthy : Option String → Bool
  | none => false
  | some s => s ≠ ""

/-- SQL `LIKE` pattern matching over character lists, with the default
escape character: a backslash makes the following character literal
(`\%` a percent, `\_` an underscore, `\\` a backslash, `\b` just `b`),
`%` matches any (possibly empty) run of characters — realized by trying
every suffix of the subject — and `_` matches any single character.
A pattern *ending* in an unescaped backslash is rejected by Postgres with
an error ("LIKE pattern must not end with escape character"); the
catalog's `'%' || param || '%'` patterns can never end that way (a
trailing parameter backslash escapes the appended `%` instead), and the
model lets such a pattern match nothing. -/
def likeMatch : List Char → List Char → Bool
  | [], s => s.isEmpty
  | '\\' :: c :: ps, d :: s => c == d && likeMatch ps s
  | '\\' :: _ :: _, [] => false
  | ['\\'], _ => false
  | '%' :: ps, s => (s.tails).any (fun t => likeMatch ps t)
  | '_' :: _, [] => false
  | '_' :: ps, _ :: s => likeMatch ps s
  | _ :: _, [] => false
  | p :: ps, c :: s => p == c && likeMatch ps s

/-- Case folding on the character content of a string (Postgres `ILIKE`
compares both sides case-insensitively). -/
def lowerChars (l : List Char) : List Char :=
  l.map Char.toLower

/-- Postgres `subject ILIKE '%' || pat || '%'` as the catalog handler
builds it: case-insensitive `LIKE` — wildcards and the default backslash
escape included — with the parameter embedded between two `%`
wildcards. -/
def ilikeContains (pat subj : String) : Bool :=
  likeMatch (lowerChars ('%' :: pat.data ++ ['%'])) (lowerChars subj.data)

/-- The `WHERE` clause built by `GET /api/catalog`: one conjunct per truthy
query parameter — `year = Number(year)`, `make ILIKE '%make%'`,
`model ILIKE '%model%'`. -/
def catalogMatches (q : CatalogQuery) (r : CatalogRow) : Bool :=
  (match q.year with
   | none => true
   | some ys => if ys = "" then true else jsStrToInt ys == some r.year) &&
  (match q.make with
   | none => true
   | some ms => if ms = "" then true else ilikeContains ms r.make) &&
  (match q.model with
   | none => true
   | some ms => if ms = "" then true else ilikeContains ms r.model)

/-- `ORDER BY year DESC, make ASC, model ASC` as a lexicographic key
(descending year = ascending negated year). -/
def catKey (r : CatalogRow) : Lex (Int × Lex (String × String)) :=
  toLex (-r.year, toLex (r.make, r.model))

/-- Boolean comparison realizing `ORDER BY year DESC, make ASC, model ASC`. -/
def catLE (a b : CatalogRow) : Bool :=
  decide (catKey a ≤ catKey b)

/-- Bounds of the Postgres `int4` type of `vehicle_catalog.year`: a truthy
`year` parameter is sent for the inferred-`int4` placeholder of
`year = $1`, so the store rejects `NaN` and every `Number` value whose
serialization is not an in-range integer literal. -/
def int4Min : Int := -2147483648

def int4Max : Int := 2147483647

/-- Whether a truthy `year` parameter makes the store reject the query:
`Number(year)` is `NaN` (or otherwise has no in-range `int4`
serialization), so `year = $1` errors and the handler's catch answers
500. -/
def yearParamBad (q : CatalogQuery) : Bool :=
  paramTruthy q.year &&
    (match jsStrToInt (q.year.getD "") with
     | none => true
     | some n => decide (n < int4Min) || decide (int4Max < n))

/-- Response of `GET /api/catalog`: on 500 the JSON body is the error
object `{error: "Failed to fetch vehicle catalog"}` and carries no rows. -/
structure CatalogResponse where
  status : Nat
  rows : List CatalogRow
deriving Repr, DecidableEq

/-- `GET /api/catalog` (part_000 lines 184–221): build one `WHERE`
conjunct per truthy parameter, `ORDER BY year DESC, make ASC, model ASC`,
`LIMIT 50000`; a bad `year` parameter errors at the store and is answered
with 500 by the catch. -/
def getCatalog (table : List CatalogRow) (q : CatalogQuery) : CatalogResponse :=
  if yearParamBad q then
    ⟨500, []⟩
  else
    ⟨200, ((table.filter (catalogMatches q)).mergeSort catLE).take 50000⟩

/-!  ## Catalog ingestion (src/csv_to_sql.js, getModelsForMakeYear) -/

/-- One entry of the `Results` array of a
`GetModelsForMakeYear` API page: its `Model_Name` when the field is a
present non-null string (`(r?.Model_Name || "")` yields `""` otherwise). -/
def cleanName (r : Option String) : String :=
  (r.getD "").trim

/-- The deduplication loop of `getModelsForMakeYear` (lines 148–159 of the
script): `seen` is the set of lower-cased keys (`m.toLowerCase()`) already
kept (`m` in the loop is `cleanName r`). -/
def extractGo (seen : List String) : List (Option String) → List String
  | [] => []
  | r :: rs =>
      if cleanName r = "" then extractGo seen rs
      else if seen.contains (cleanName r).toLower then extractGo seen rs
      else cleanName r :: extractGo ((cleanName r).toLower :: seen) rs

/-- `getModelsForMakeYear`'s model extraction from one API page: trim each
`Model_Name`, drop empties, deduplicate case-insensitively keeping the
first occurrence, in order. -/
def extractModels (results : List (Option String)) : List String :=
  extractGo [] results

/-- Modelled from the spec: "deduplicating case-insensitively" keeping
"the first occurrence of each name in the original order" — keep the first
element of each case-insensitive equivalence class, dropping the later
ones. -/
def keepFirstByKey : List String → List String
  | [] => []
  | m :: rest =>
      m :: keepFirstByKey (rest.filter (fun x => !(x.toLower == m.toLower)))
termination_by l => l.length
decreasing_by
  simp only [List.length_cons]
  exact Nat.lt_succ_of_le (List.length_filter_le _ _)

/-!  ## Spec-side predicates (from the spec's words, for refinement) -/

/-- Whether the first character list occurs contiguously inside the
second. -/
def isPrefixL : List Char → List Char → Bool
  | [], _ => true
  | _ :: _, [] => false
  | a :: as, b :: bs => a == b && isPrefixL as bs

/-- Contiguous-sublist test on character lists. -/
def isInfixL (n h : List Char) : Bool :=
  isPrefixL n h ||
    (match h with
     | [] => false
     | _ :: h' => isInfixL n h')

/-- Modelled from the spec: "case-insensitive substring match" — the
needle occurs inside the haystack, ignoring case. -/
def specContainsCI (needle hay : String) : Bool :=
  isInfixL (lowerChars needle.data) (lowerChars hay.data)

/-- The mileage of a response body when it is a single row. -/
def bodyRowMileage : ApiBody → Option Nat
  | .row r => some r.mileage
  | _ => none

/-- The row of a response body when it is a single row. -/
def bodyRow? : ApiBody → Option VehicleRow
  | .row r => some r
  | _ => none

/-!  ## General lemmas about the embedded helpers -/

theorem filter_all_isDigit (l : List Char) :
    (l.filter Char.isDigit).all Char.isDigit = true := by
  rw [List.all_eq_true]
  intro c hc
  exact (List.mem_filter.mp hc).2

/-- The sanitizer of the PATCH handler never produces `NaN`: stripping a
string to its digits always leaves a string `Number` can read. -/
theorem patchMiles_isSome (m : Option JSVal) : (patchMiles m).isSome = true := by
  unfold patchMiles jsNumberOfDigits digitsOnly
  simp [filter_all_isDigit]

theorem sanitizeMiles_none : sanitizeMiles none = 0 := by decide

/-- The POST sanitizer on a string value keeps exactly its digit
characters. -/
theorem sanitizeMiles_str (ms : String) :
    sanitizeMiles (some (.str ms)) = natOfDigits (ms.data.filter Char.isDigit) := by
  unfold sanitizeMiles jsCoalesce jsToString digitsOnly jsNumberOfDigits
  simp [filter_all_isDigit]

theorem jsOrNull_of_falsy (v : Option JSVal) (h : jsTruthy (v.getD .null) = false) :
    jsOrNull v = .null := by
  cases v with
  | none => rfl
  | some w =>
      simp only [Option.getD] at h
      simp [jsOrNull, h]

/-!  ## Claim theorems -/

/-- C1 (code bug): the spec says a non-numeric mileage in
`PATCH /api/vehicles/:id` yields 400 without updating any row, and the
handler indeed carries a `res.status(400)` guard with the message
"Mileage must be a number" — but the guard is dead: the handler strips the
value to its digit characters *before* the `isNaN` test, and `Number` of a
digit-only string (or of the empty string) is never `NaN`.  On the body
`{mileage: "abc"}` against a table holding vehicle 1, the handler updates
the row's mileage to 0 and answers 200; in general every PATCH answers
200 or 404, never 400. -/
theorem patch_nonnumeric_mileage_updates_row :
    (patchVehicle ⟨[⟨1, 2020, "Honda", "Civic", 123⟩], 2⟩ 1 (some (.str "abc"))).status = 200 ∧
    (patchVehicle ⟨[⟨1, 2020, "Honda", "Civic", 123⟩], 2⟩ 1 (some (.str "abc"))).state.rows
      = [⟨1, 2020, "Honda", "Civic", 0⟩] ∧
    ∀ (s : VehiclesState) (i : Nat) (m : Option JSVal),
      (patchVehicle s i m).status = 200 ∨ (patchVehicle s i m).status = 404 := by
  refine ⟨rfl, rfl, ?_⟩
  intro s i m
  have h := patchMiles_isSome m
  rw [Option.isSome_iff_exists] at h
  obtain ⟨n, hn⟩ := h
  unfold patchVehicle
  rw [hn]
  cases hf : s.rows.find? (fun r => r.id == i)
  · exact Or.inr rfl
  · exact Or.inl rfl

/-- C2 counterexample: deleting vehicle 1 from a one-row table succeeds
(status 200) yet the response body is `{success, deletedId}`, not the
resulting row; `DELETE /api/vehicles/all` likewise answers with a message,
not a row.  So not every mutating vehicle operation returns the resulting
row. -/
theorem delete_responses_contain_no_row :
    (deleteVehicle ⟨[⟨1, 2020, "Honda", "Civic", 0⟩], 2⟩ 1).status = 200 ∧
    isRowBody (deleteVehicle ⟨[⟨1, 2020, "Honda", "Civic", 0⟩], 2⟩ 1).body = false ∧
    isRowBody (deleteAllVehicles ⟨[⟨1, 2020, "Honda", "Civic", 0⟩], 2⟩).body = false :=
  ⟨rfl, rfl, rfl⟩

/-- C2 (amended): create and update-mileage return the resulting row on
success; delete by identifier returns a success object carrying the deleted
identifier, and delete-all returns a success message — the delete
operations do not return rows. -/
theorem mutating_vehicle_response_shapes (s : VehiclesState) (b : VehicleReqBody)
    (i : Nat) (m : Option JSVal) :
    ((createVehicle s b).status = 201 → isRowBody (createVehicle s b).body = true) ∧
    ((patchVehicle s i m).status = 200 → isRowBody (patchVehicle s i m).body = true) ∧
    ((deleteVehicle s i).status = 200 → (deleteVehicle s i).body = ApiBody.deleted i) ∧
    (deleteAllVehicles s).body = ApiBody.message "All vehicles deleted." := by
  refine ⟨?_, ?_, ?_, rfl⟩
  · intro h
    unfold createVehicle at h ⊢
    by_cases hv : (!(fieldTruthy b.year && fieldTruthy b.make && fieldTruthy b.model)) = true
    · rw [if_pos hv] at h
      simp at h
    · rw [if_neg hv] at h ⊢
      cases hj : jsToNumber (jsCoalesce b.year .null)
      · rw [hj] at h
        simp at h
      · rfl
  · intro h
    have hs := patchMiles_isSome m
    rw [Option.isSome_iff_exists] at hs
    obtain ⟨n, hn⟩ := hs
    unfold patchVehicle at h ⊢
    rw [hn] at h ⊢
    cases hf : s.rows.find? (fun r => r.id == i)
    · rw [hf] at h
      simp at h
    · rfl
  · intro h
    unfold deleteVehicle at h ⊢
    by_cases hc : ((s.rows.filter (fun r => !(r.id == i))).length == s.rows.length) = true
    · rw [if_pos hc] at h
      simp at h
    · rw [if_neg hc]

/-- C2 witness: the amended shapes at concrete requests. -/
theorem mutating_vehicle_response_shapes_witness :
    isRowBody (createVehicle ⟨[], 1⟩
        ⟨some (.num 2020), some (.str "Honda"), some (.str "Civic"), none⟩).body = true ∧
    isRowBody (patchVehicle ⟨[⟨1, 2020, "Honda", "Civic", 0⟩], 2⟩ 1 (some (.num 5))).body = true ∧
    (deleteVehicle ⟨[⟨1, 2020, "Honda", "Civic", 0⟩], 2⟩ 1).body = ApiBody.deleted 1 ∧
    (deleteAllVehicles ⟨[], 1⟩).body = ApiBody.message "All vehicles deleted." :=
  ⟨(mutating_vehicle_response_shapes ⟨[], 1⟩
      ⟨some (.num 2020), some (.str "Honda"), some (.str "Civic"), none⟩ 1 none).1 rfl,
   (mutating_vehicle_response_shapes ⟨[⟨1, 2020, "Honda", "Civic", 0⟩], 2⟩
      ⟨none, none, none, none⟩ 1 (some (.num 5))).2.1 rfl,
   (mutating_vehicle_response_shapes ⟨[⟨1, 2020, "Honda", "Civic", 0⟩], 2⟩
      ⟨none, none, none, none⟩ 1 none).2.2.1 rfl,
   (mutating_vehicle_response_shapes ⟨[], 1⟩ ⟨none, none, none, none⟩ 1 none).2.2.2⟩

/-- C3: in `POST /api/vehicles` the mileage field is optional: under the
required-field validation (truthy year/make/model, numeric year) the
handler answers 201; an absent mileage is stored as 0, and a string
mileage is sanitized to exactly its digit characters. -/
theorem create_mileage_optional_and_sanitized (s : VehiclesState) (b : VehicleReqBody)
    (y : Int) (h1 : fieldTruthy b.year = true) (h2 : fieldTruthy b.make = true)
    (h3 : fieldTruthy b.model = true)
    (hy : jsToNumber (jsCoalesce b.year .null) = some y) :
    (createVehicle s b).status = 201 ∧
    (b.mileage = none → bodyRowMileage (createVehicle s b).body = some 0) ∧
    (∀ ms, b.mileage = some (.str ms) →
      bodyRowMileage (createVehicle s b).body
        = some (natOfDigits (ms.data.filter Char.isDigit))) := by
  have hcond : (!(fieldTruthy b.year && fieldTruthy b.make && fieldTruthy b.model)) = false := by
    rw [h1, h2, h3]
    rfl
  unfold createVehicle
  rw [hcond, hy]
  refine ⟨rfl, ?_, ?_⟩
  · intro hm
    rw [hm]
    simp [bodyRowMileage, sanitizeMiles_none]
  · intro ms hm
    rw [hm]
    simp [bodyRowMileage, sanitizeMiles_str]

/-- C3 witness: `{year: 2020, make: "Honda", model: "Civic"}` with no
mileage yields 201 and a row whose mileage is 0. -/
theorem create_mileage_optional_and_sanitized_witness :
    (createVehicle ⟨[], 1⟩
        ⟨some (.num 2020), some (.str "Honda"), some (.str "Civic"), none⟩).status = 201 ∧
    bodyRowMileage (createVehicle ⟨[], 1⟩
        ⟨some (.num 2020), some (.str "Honda"), some (.str "Civic"), none⟩).body = some 0 := by
  obtain ⟨ha, hb, -⟩ := create_mileage_optional_and_sanitized ⟨[], 1⟩
    ⟨some (.num 2020), some (.str "Honda"), some (.str "Civic"), none⟩ 2020
    (by decide) (by decide) (by decide) (by decide)
  exact ⟨ha, hb rfl⟩

/-- C4 counterexample: a body in which year, make and model are all
*present* — `{year: 0, make: "Honda", model: "Civic"}` — is still rejected
with 400, because the handler tests JavaScript truthiness, not presence;
so "otherwise it returns 201" fails. -/
theorem create_present_falsy_year_still_400 :
    (createVehicle ⟨[], 1⟩
        ⟨some (.num 0), some (.str "Honda"), some (.str "Civic"), none⟩).status = 400 ∧
    (⟨some (.num 0), some (.str "Honda"), some (.str "Civic"), none⟩
        : VehicleReqBody).year.isSome = true ∧
    (⟨some (.num 0), some (.str "Honda"), some (.str "Civic"), none⟩
        : VehicleReqBody).make.isSome = true ∧
    (⟨some (.num 0), some (.str "Honda"), some (.str "Civic"), none⟩
        : VehicleReqBody).model.isSome = true :=
  ⟨rfl, rfl, rfl, rfl⟩

/-- C4 (amended): `POST /api/vehicles` answers 400 and persists nothing
whenever year, make or model is missing *or otherwise falsy* (0, "",
null, false); when all three are truthy (and the year is numeric) it
answers 201 and appends exactly the returned row. -/
theorem create_requires_truthy_fields (s : VehiclesState) (b : VehicleReqBody) :
    ((fieldTruthy b.year = false ∨ fieldTruthy b.make = false ∨ fieldTruthy b.model = false) →
      (createVehicle s b).status = 400 ∧ (createVehicle s b).state = s) ∧
    (∀ y : Int, fieldTruthy b.year = true → fieldTruthy b.make = true →
      fieldTruthy b.model = true → jsToNumber (jsCoalesce b.year .null) = some y →
      (createVehicle s b).status = 201 ∧
      (createVehicle s b).state.rows
        = s.rows ++ (bodyRow? (createVehicle s b).body).toList) := by
  constructor
  · intro hfalsy
    have hcond : (!(fieldTruthy b.year && fieldTruthy b.make && fieldTruthy b.model)) = true := by
      rcases hfalsy with h | h | h <;> simp [h]
    unfold createVehicle
    rw [if_pos hcond]
    exact ⟨rfl, rfl⟩
  · intro y h1 h2 h3 hy
    have hcond : (!(fieldTruthy b.year && fieldTruthy b.make && fieldTruthy b.model)) = false := by
      rw [h1, h2, h3]
      rfl
    unfold createVehicle
    rw [hcond, hy]
    exact ⟨rfl, rfl⟩

/-- C4 witness: a body missing `model` is rejected with 400 and leaves the
table unchanged; a complete truthy body is created with 201 and appends
the returned row. -/
theorem create_requires_truthy_fields_witness :
    ((createVehicle ⟨[], 1⟩ ⟨some (.num 2020), some (.str "Honda"), none, none⟩).status = 400 ∧
      (createVehicle ⟨[], 1⟩ ⟨some (.num 2020), some (.str "Honda"), none, none⟩).state
        = ⟨[], 1⟩) ∧
    ((createVehicle ⟨[], 1⟩
        ⟨some (.num 2020), some (.str "Honda"), some (.str "Civic"), none⟩).status = 201 ∧
      (createVehicle ⟨[], 1⟩
          ⟨some (.num 2020), some (.str "Honda"), some (.str "Civic"), none⟩).state.rows
        = [] ++ (bodyRow? (createVehicle ⟨[], 1⟩
            ⟨some (.num 2020), some (.str "Honda"), some (.str "Civic"), none⟩).body).toList) :=
  ⟨(create_requires_truthy_fields ⟨[], 1⟩
      ⟨some (.num 2020), some (.str "Honda"), none, none⟩).1 (Or.inr (Or.inr rfl)),
   (create_requires_truthy_fields ⟨[], 1⟩
      ⟨some (.num 2020), some (.str "Honda"), some (.str "Civic"), none⟩).2 2020
      (by decide) (by decide) (by decide) (by decide)⟩

/-- C5: an identifier matching no row makes both `PATCH /api/vehicles/:id`
and `DELETE /api/vehicles/:id` answer 404 and leave the table unchanged. -/
theorem unknown_id_patch_delete_404 (s : VehiclesState) (i : Nat) (m : Option JSVal)
    (h : ∀ r ∈ s.rows, r.id ≠ i) :
    (patchVehicle s i m).status = 404 ∧ (patchVehicle s i m).state = s ∧
    (deleteVehicle s i).status = 404 ∧ (deleteVehicle s i).state = s := by
  have hs := patchMiles_isSome m
  rw [Option.isSome_iff_exists] at hs
  obtain ⟨n, hn⟩ := hs
  have hfind : s.rows.find? (fun r => r.id == i) = none := by
    rw [List.find?_eq_none]
    intro r hr
    simp [h r hr]
  have hfilter : s.rows.filter (fun r => !(r.id == i)) = s.rows := by
    rw [List.filter_eq_self]
    intro r hr
    simp [h r hr]
  have hlen : ((s.rows.filter (fun r => !(r.id == i))).length == s.rows.length) = true := by
    rw [hfilter]
    simp
  constructor
  · unfold patchVehicle
    rw [hn, hfind]
  · constructor
    · unfold patchVehicle
      rw [hn, hfind]
    · unfold deleteVehicle
      rw [if_pos hlen]
      exact ⟨rfl, rfl⟩

/-- C5 witness: id 7 matches nothing in a one-row table. -/
theorem unknown_id_patch_delete_404_witness :
    (patchVehicle ⟨[⟨1, 2020, "Honda", "Civic", 123⟩], 2⟩ 7 (some (.num 9))).status = 404 ∧
    (patchVehicle ⟨[⟨1, 2020, "Honda", "Civic", 123⟩], 2⟩ 7 (some (.num 9))).state
      = ⟨[⟨1, 2020, "Honda", "Civic", 123⟩], 2⟩ ∧
    (deleteVehicle ⟨[⟨1, 2020, "Honda", "Civic", 123⟩], 2⟩ 7).status = 404 ∧
    (deleteVehicle ⟨[⟨1, 2020, "Honda", "Civic", 123⟩], 2⟩ 7).state
      = ⟨[⟨1, 2020, "Honda", "Civic", 123⟩], 2⟩ :=
  unknown_id_patch_delete_404 ⟨[⟨1, 2020, "Honda", "Civic", 123⟩], 2⟩ 7 (some (.num 9))
    (by decide)

/-- C8: `DELETE /api/vehicles/all` empties the vehicles table and resets
the identity sequence to 1, so a subsequent `GET /api/vehicles` answers
200 with an empty collection. -/
theorem delete_all_then_list_empty (s : VehiclesState) :
    (deleteAllVehicles s).state.rows = [] ∧
    (deleteAllVehicles s).state.nextId = 1 ∧
    (getVehicles (deleteAllVehicles s).state).status = 200 ∧
    (getVehicles (deleteAllVehicles s).state).body = ApiBody.rows [] := by
  refine ⟨rfl, rfl, rfl, ?_⟩
  simp [getVehicles, deleteAllVehicles, List.mergeSort_nil]

/-- C10 counterexample: mileage *is* an optional field of
`POST /api/services`, yet a supplied falsy mileage (0) is not coerced to
null — the insert passes it through, so the stored and returned row keeps
mileage 0. -/
theorem service_zero_mileage_not_nulled :
    (postService ⟨[], 1⟩ ⟨some (.num 7), some (.str "Oil change"), some (.num 0),
        none, none, none, none⟩).status = 201 ∧
    (postService ⟨[], 1⟩ ⟨some (.num 7), some (.str "Oil change"), some (.num 0),
        none, none, none, none⟩).row?
      = some ⟨1, .num 7, .str "Oil change", .num 0, .null, .null, .null, .null⟩ :=
  ⟨rfl, rfl⟩

/-- C10 (amended): under the required-field validation, each of
`interval`, `service_date`, `cost`, `notes` is coerced to null when its
supplied value is falsy (or the field is absent) — in particular a cost of
0 is stored and returned as null — while `mileage` is passed through
unchanged. -/
theorem service_falsy_optionals_coerced (s : ServicesState) (b : ServiceReqBody)
    (h1 : fieldTruthy b.vehicle_id = true) (h2 : fieldTruthy b.service_name = true) :
    (postService s b).status = 201 ∧
    (jsTruthy (b.interval.getD .null) = false →
      ((postService s b).row?).map ServiceRow.interval = some JSVal.null) ∧
    (jsTruthy (b.service_date.getD .null) = false →
      ((postService s b).row?).map ServiceRow.service_date = some JSVal.null) ∧
    (jsTruthy (b.cost.getD .null) = false →
      ((postService s b).row?).map ServiceRow.cost = some JSVal.null) ∧
    (jsTruthy (b.notes.getD .null) = false →
      ((postService s b).row?).map ServiceRow.notes = some JSVal.null) ∧
    ((postService s b).row?).map ServiceRow.mileage = some (b.mileage.getD .null) := by
  have hcond : (!(fieldTruthy b.vehicle_id && fieldTruthy b.service_name)) = false := by
    rw [h1, h2]
    rfl
  unfold postService
  rw [hcond]
  refine ⟨rfl, ?_, ?_, ?_, ?_, rfl⟩ <;> intro hfalsy <;>
    simp [jsOrNull_of_falsy _ hfalsy]

/-- C10 witness: cost 0 (with notes absent) is stored as null, mileage 12
is passed through. -/
theorem service_falsy_optionals_coerced_witness :
    (postService ⟨[], 1⟩ ⟨some (.num 7), some (.str "Oil change"), some (.num 12),
        none, none, some (.num 0), none⟩).status = 201 ∧
    ((postService ⟨[], 1⟩ ⟨some (.num 7), some (.str "Oil change"), some (.num 12),
        none, none, some (.num 0), none⟩).row?).map ServiceRow.cost = some JSVal.null ∧
    ((postService ⟨[], 1⟩ ⟨some (.num 7), some (.str "Oil change"), some (.num 12),
        none, none, some (.num 0), none⟩).row?).map ServiceRow.mileage
      = some (JSVal.num 12) := by
  obtain ⟨ha, -, -, hc, -, hm⟩ := service_falsy_optionals_coerced ⟨[], 1⟩
    ⟨some (.num 7), some (.str "Oil change"), some (.num 12),
      none, none, some (.num 0), none⟩ (by decide) (by decide)
  exact ⟨ha, hc (by decide), hm⟩

/-- Two permutations of each other that are both sorted by a key with no
duplicate key values are equal. -/
theorem sortedKeyPermEq {α : Type _} (key : α → Nat) :
    ∀ (l₁ l₂ : List α), l₁.Perm l₂ → (l₁.map key).Nodup →
      l₁.Pairwise (fun a b => key b ≤ key a) →
      l₂.Pairwise (fun a b => key b ≤ key a) → l₁ = l₂ := by
  intro l₁
  induction l₁ with
  | nil =>
      intro l₂ hp _ _ _
      exact (List.perm_nil.mp hp.symm).symm
  | cons a t ih =>
      intro l₂ hp hnd hs₁ hs₂
      cases l₂ with
      | nil => exact absurd (List.perm_nil.mp hp) (by simp)
      | cons b t₂ =>
          have hab : a = b := by
            by_contra hne
            have ha : a ∈ t₂ := by
              rcases List.mem_cons.mp (hp.mem_iff.mp (List.mem_cons_self a t)) with h | h
              · exact absurd h hne
              · exact h
            have hb : b ∈ t := by
              rcases List.mem_cons.mp (hp.mem_iff.mpr (List.mem_cons_self b t₂)) with h | h
              · exact absurd h.symm hne
              · exact h
            have h1 : key b ≤ key a := (List.pairwise_cons.mp hs₁).1 b hb
            have h2 : key a ≤ key b := (List.pairwise_cons.mp hs₂).1 a ha
            have hmem : key a ∈ t.map key :=
              List.mem_map.mpr ⟨b, hb, (le_antisymm h2 h1).symm⟩
            exact (List.nodup_cons.mp (by simpa using hnd)).1 hmem
          subst hab
          have hnd' : (t.map key).Nodup := (List.nodup_cons.mp (by simpa using hnd)).2
          rw [ih t₂ hp.cons_inv hnd' (List.pairwise_cons.mp hs₁).2
            (List.pairwise_cons.mp hs₂).2]

theorem vehDescLE_trans (a b c : VehicleRow) :
    vehDescLE a b = true → vehDescLE b c = true → vehDescLE a c = true := by
  simp only [vehDescLE, decide_eq_true_eq]
  omega

theorem vehDescLE_total (a b : VehicleRow) : (vehDescLE a b || vehDescLE b a) = true := by
  simp only [vehDescLE, Bool.or_eq_true, decide_eq_true_eq]
  omega

/-- C7: on a table whose rows are in chronological order with strictly
increasing identity values (the invariant creation maintains),
`GET /api/vehicles` answers 200 with the full table most recent first —
the reverse of the insertion order. -/
theorem list_vehicles_most_recent_first (s : VehiclesState)
    (hchron : s.rows.Pairwise (fun a b => a.id < b.id)) :
    (getVehicles s).status = 200 ∧
    (getVehicles s).body = ApiBody.rows s.rows.reverse := by
  refine ⟨rfl, ?_⟩
  unfold getVehicles
  have heq : s.rows.mergeSort vehDescLE = s.rows.reverse := by
    apply sortedKeyPermEq VehicleRow.id
    · exact (List.mergeSort_perm s.rows vehDescLE).trans (List.reverse_perm s.rows).symm
    · have h1 : (s.rows.map VehicleRow.id).Nodup := by
        show (s.rows.map VehicleRow.id).Pairwise (· ≠ ·)
        rw [List.pairwise_map]
        exact hchron.imp (fun h => Nat.ne_of_lt h)
      exact (((List.mergeSort_perm s.rows vehDescLE).map VehicleRow.id).nodup_iff).mpr h1
    · have hsorted := List.sorted_mergeSort vehDescLE_trans vehDescLE_total s.rows
      exact hsorted.imp (fun h => of_decide_eq_true h)
    · rw [List.pairwise_reverse]
      exact hchron.imp (fun h => Nat.le_of_lt h)
  rw [heq]

/-- C7 witness: a two-row chronological table lists most recent first. -/
theorem list_vehicles_most_recent_first_witness :
    (getVehicles ⟨[⟨1, 2019, "Audi", "A4", 0⟩, ⟨2, 2021, "BMW", "M3", 5⟩], 3⟩).status = 200 ∧
    (getVehicles ⟨[⟨1, 2019, "Audi", "A4", 0⟩, ⟨2, 2021, "BMW", "M3", 5⟩], 3⟩).body
      = ApiBody.rows [⟨2, 2021, "BMW", "M3", 5⟩, ⟨1, 2019, "Audi", "A4", 0⟩] :=
  list_vehicles_most_recent_first
    ⟨[⟨1, 2019, "Audi", "A4", 0⟩, ⟨2, 2021, "BMW", "M3", 5⟩], 3⟩ (by decide)

theorem catLE_trans (a b c : CatalogRow) :
    catLE a b = true → catLE b c = true → catLE a c = true := by
  simp only [catLE, decide_eq_true_eq]
  exact le_trans

theorem catLE_total (a b : CatalogRow) : (catLE a b || catLE b a) = true := by
  simp only [catLE, Bool.or_eq_true, decide_eq_true_eq]
  exact le_total (catKey a) (catKey b)

/-- The comparison realizes exactly `ORDER BY year DESC, make ASC,
model ASC`. -/
theorem catLE_iff (a b : CatalogRow) :
    catLE a b = true ↔
      (b.year < a.year ∨ (a.year = b.year ∧
        (a.make < b.make ∨ (a.make = b.make ∧ a.model ≤ b.model)))) := by
  simp only [catLE, catKey, decide_eq_true_eq, Prod.Lex.le_iff, neg_lt_neg_iff, neg_inj]

/-- C6 (amended): `GET /api/catalog` answers 500 when the truthy `year`
parameter has no in-range integer value for the store; otherwise it
answers 200 with rows drawn from the table that satisfy equality on year
and case-insensitive `ILIKE '%param%'` pattern match on make and model
(`%`/`_` wildcards, backslash escape), ordered by year descending, make
ascending, model ascending, and truncated to the first 50,000: the
listing's length is the minimum of 50,000 and the number of matching
rows, and it is exactly the matching rows whenever at most 50,000
match. -/
theorem catalog_query_spec (table : List CatalogRow) (q : CatalogQuery) :
    (yearParamBad q = true →
      (getCatalog table q).status = 500 ∧ (getCatalog table q).rows = []) ∧
    (yearParamBad q = false →
      (getCatalog table q).status = 200 ∧
      (∀ r, r ∈ (getCatalog table q).rows → r ∈ table ∧ catalogMatches q r = true) ∧
      ((getCatalog table q).rows).Pairwise (fun a b =>
        b.year < a.year ∨ (a.year = b.year ∧
          (a.make < b.make ∨ (a.make = b.make ∧ a.model ≤ b.model)))) ∧
      (getCatalog table q).rows.length
        = min 50000 (table.filter (catalogMatches q)).length ∧
      ((table.filter (catalogMatches q)).length ≤ 50000 →
        ((getCatalog table q).rows).Perm (table.filter (catalogMatches q)))) := by
  constructor
  · intro hbad
    unfold getCatalog
    rw [if_pos hbad]
    exact ⟨rfl, rfl⟩
  · intro hgood
    unfold getCatalog
    rw [if_neg (by rw [hgood]; decide)]
    refine ⟨rfl, ?_, ?_, ?_, ?_⟩
    · intro r hr
      have h1 : r ∈ (table.filter (catalogMatches q)).mergeSort catLE :=
        (List.take_sublist _ _).subset hr
      have h2 : r ∈ table.filter (catalogMatches q) :=
        (List.mergeSort_perm _ _).mem_iff.mp h1
      exact List.mem_filter.mp h2
    · exact List.Pairwise.sublist (List.take_sublist _ _)
        ((List.sorted_mergeSort catLE_trans catLE_total
            (table.filter (catalogMatches q))).imp
          (fun h => (catLE_iff _ _).mp h))
    · rw [List.length_take,
        (List.mergeSort_perm (table.filter (catalogMatches q)) catLE).length_eq,
        inf_eq_min]
    · intro hsize
      have hlen : ((table.filter (catalogMatches q)).mergeSort catLE).length ≤ 50000 := by
        rw [(List.mergeSort_perm _ _).length_eq]
        exact hsize
      rw [List.take_of_length_le hlen]
      exact List.mergeSort_perm _ _

/-- C6 witness: a non-numeric `year` is answered 500; on a two-row table,
`make=Toy` answers 200 and keeps exactly the Toyota row. -/
theorem catalog_query_spec_witness :
    (getCatalog [] ⟨some "xyz", none, none⟩).status = 500 ∧
    (getCatalog [⟨2020, "Toyota", "Corolla", "", "", ""⟩, ⟨2021, "Honda", "Civic", "", "", ""⟩]
        ⟨none, some "Toy", none⟩).status = 200 ∧
    ((getCatalog [⟨2020, "Toyota", "Corolla", "", "", ""⟩, ⟨2021, "Honda", "Civic", "", "", ""⟩]
        ⟨none, some "Toy", none⟩).rows).Perm
      ([⟨2020, "Toyota", "Corolla", "", "", ""⟩, ⟨2021, "Honda", "Civic", "", "", ""⟩].filter
        (catalogMatches ⟨none, some "Toy", none⟩)) := by
  refine ⟨((catalog_query_spec [] ⟨some "xyz", none, none⟩).1 (by decide)).1, ?_, ?_⟩
  · exact ((catalog_query_spec
      [⟨2020, "Toyota", "Corolla", "", "", ""⟩, ⟨2021, "Honda", "Civic", "", "", ""⟩]
      ⟨none, some "Toy", none⟩).2 (by decide)).1
  · exact ((catalog_query_spec
      [⟨2020, "Toyota", "Corolla", "", "", ""⟩, ⟨2021, "Honda", "Civic", "", "", ""⟩]
      ⟨none, some "Toy", none⟩).2 (by decide)).2.2.2.2 (by decide)

/-- C6 counterexample: the claim reads the make filter as case-insensitive
*substring* match, but the parameter is pasted into an `ILIKE` pattern:
its `%` and `_` act as wildcards and its backslash escapes the next
character.  With `make=T%a` the handler returns the Toyota row though
"T%a" is not a substring of "Toyota" ignoring case; and the pattern
characters are not even matched literally — `a\b` matches "Saab" (the
backslash escapes the `b`) though "a\b" is no substring of it. -/
theorem catalog_wildcard_defeats_substring :
    (getCatalog [⟨2020, "Toyota", "Corolla", "", "", ""⟩] ⟨none, some "T%a", none⟩).rows
      = [⟨2020, "Toyota", "Corolla", "", "", ""⟩] ∧
    specContainsCI "T%a" "Toyota" = false ∧
    ilikeContains "a\\b" "Saab" = true ∧
    specContainsCI "a\\b" "Saab" = false := by
  refine ⟨?_, by decide, by decide, by decide⟩
  show (([⟨2020, "Toyota", "Corolla", "", "", ""⟩].filter
      (catalogMatches ⟨none, some "T%a", none⟩)).mergeSort catLE).take 50000
    = [⟨2020, "Toyota", "Corolla", "", "", ""⟩]
  have hf : [(⟨2020, "Toyota", "Corolla", "", "", ""⟩ : CatalogRow)].filter
      (catalogMatches ⟨none, some "T%a", none⟩)
      = [⟨2020, "Toyota", "Corolla", "", "", ""⟩] := by decide
  rw [hf, List.mergeSort_singleton]
  rfl

/-!  ## Deduplication lemmas (C9) -/

theorem kf_mem (l : List String) (x : String) (hx : x ∈ keepFirstByKey l) : x ∈ l := by
  induction l using keepFirstByKey.induct with
  | case1 =>
      rw [keepFirstByKey] at hx
      exact absurd hx (List.not_mem_nil x)
  | case2 m rest ih =>
      rw [keepFirstByKey] at hx
      rcases List.mem_cons.mp hx with h | h
      · exact h ▸ List.mem_cons_self x rest
      · exact List.mem_cons_of_mem m ((List.filter_sublist rest).subset (ih h))

theorem kf_sublist (l : List String) : (keepFirstByKey l).Sublist l := by
  induction l using keepFirstByKey.induct with
  | case1 =>
      rw [keepFirstByKey]
  | case2 m rest ih =>
      rw [keepFirstByKey]
      exact List.Sublist.cons₂ m (ih.trans (List.filter_sublist _))

theorem kf_nodup_keys (l : List String) :
    ((keepFirstByKey l).map String.toLower).Nodup := by
  induction l using keepFirstByKey.induct with
  | case1 =>
      rw [keepFirstByKey]
      exact List.nodup_nil
  | case2 m rest ih =>
      rw [keepFirstByKey]
      rw [List.map_cons, List.nodup_cons]
      refine ⟨?_, ih⟩
      intro hmem
      obtain ⟨x, hx, hkey⟩ := List.mem_map.mp hmem
      have hxf := kf_mem _ x hx
      have := (List.mem_filter.mp hxf).2
      rw [hkey] at this
      simp at this

theorem kf_key_complete (l : List String) (m : String) (hm : m ∈ l) :
    ∃ x, x ∈ keepFirstByKey l ∧ x.toLower = m.toLower := by
  induction l using keepFirstByKey.induct with
  | case1 => exact absurd hm (List.not_mem_nil m)
  | case2 m' rest ih =>
      rw [keepFirstByKey]
      rcases List.mem_cons.mp hm with h | h
      · exact ⟨m', List.mem_cons_self m' _, by rw [h]⟩
      · by_cases hkey : m.toLower = m'.toLower
        · exact ⟨m', List.mem_cons_self m' _, hkey.symm⟩
        · have hmf : m ∈ rest.filter (fun x => !(x.toLower == m'.toLower)) := by
            rw [List.mem_filter]
            exact ⟨h, by simp [hkey]⟩
          obtain ⟨x, hx, hxk⟩ := ih hmf
          exact ⟨x, List.mem_cons_of_mem m' hx, hxk⟩

/-- The loop of `getModelsForMakeYear` with its `seen` accumulator is the
spec's keep-first case-insensitive deduplication of the names whose lower
case is not yet in `seen`. -/
theorem extractGo_eq (rs : List (Option String)) : ∀ (seen : List String),
    extractGo seen rs
      = keepFirstByKey (((rs.map cleanName).filter (fun m => !(m == ""))).filter
          (fun m => !(seen.contains m.toLower))) := by
  induction rs with
  | nil =>
      intro seen
      simp only [List.map_nil, List.filter_nil]
      rw [keepFirstByKey]
      rfl
  | cons r rs ih =>
      intro seen
      rw [List.map_cons, List.filter_cons]
      by_cases hempty : cleanName r = ""
      · rw [if_neg (by simp [hempty])]
        show extractGo seen (r :: rs) = _
        rw [extractGo, if_pos hempty]
        exact ih seen
      · rw [if_pos (by simp [hempty])]
        rw [List.filter_cons]
        rw [extractGo, if_neg hempty]
        by_cases hseen : seen.contains (cleanName r).toLower = true
        · rw [if_pos hseen, if_neg (by rw [hseen]; decide)]
          exact ih seen
        · rw [Bool.not_eq_true] at hseen
          rw [if_neg (by rw [hseen]; decide), if_pos (by rw [hseen]; decide)]
          rw [keepFirstByKey]
          congr 1
          rw [ih ((cleanName r).toLower :: seen)]
          congr 1
          rw [List.filter_filter, List.filter_filter, List.filter_filter]
          apply List.filter_congr
          intro x _
          rw [List.contains_cons]
          cases hxs : seen.contains x.toLower <;>
            cases hxk : x.toLower == (cleanName r).toLower <;>
              cases hxe : x == "" <;> simp [hxs, hxk, hxe]

/-- C9: the per-page model extraction of `getModelsForMakeYear` equals the
spec's keep-first case-insensitive deduplication of the trimmed non-empty
`Model_Name`s: it drops empty names, returns a subsequence of the cleaned
names (first occurrences, original order), no two returned models are
equal ignoring case, and every cleaned name is represented by a
case-equal survivor. -/
theorem extract_models_dedup (rs : List (Option String)) :
    extractModels rs
      = keepFirstByKey ((rs.map cleanName).filter (fun m => !(m == ""))) ∧
    ((extractModels rs).map String.toLower).Nodup ∧
    (extractModels rs).Sublist ((rs.map cleanName).filter (fun m => !(m == ""))) ∧
    (extractModels rs).all (fun m => !(m == "")) = true ∧
    ((rs.map cleanName).filter (fun m => !(m == ""))).all
      (fun m => (extractModels rs).any (fun x => x.toLower == m.toLower)) = true := by
  have h0 : extractModels rs
      = keepFirstByKey ((rs.map cleanName).filter (fun m => !(m == ""))) := by
    unfold extractModels
    rw [extractGo_eq]
    congr 1
    apply List.filter_eq_self.mpr
    intro a _
    rfl
  refine ⟨h0, ?_, ?_, ?_, ?_⟩
  · rw [h0]
    exact kf_nodup_keys _
  · rw [h0]
    exact kf_sublist _
  · rw [List.all_eq_true]
    intro m hm
    rw [h0] at hm
    have hmem := (kf_sublist _).subset hm
    exact (List.mem_filter.mp hmem).2
  · rw [List.all_eq_true]
    intro m hm
    obtain ⟨x, hx, hkey⟩ := kf_key_complete _ m hm
    rw [List.any_eq_true]
    exact ⟨x, by rw [h0]; exact hx, by simp [hkey]⟩
